import Mathlib

/-!
Shallow embedding of `src/aruco_localization/ArucoLocalizer.cpp`
(namespace `aruco_localizer`, class `ArucoLocalizer`).

Machine doubles that hold exact decimal literals and exact integer/rational
arithmetic are modelled as `ℚ`; ROS message integer fields as `ℕ`;
C++ `int` index arithmetic as `ℤ`.  External collaborators (OpenCV,
the aruco library, ROS transport) are modelled only at their interface:
`cv::Rodrigues` output is taken as an input rotation matrix,
`aruco::CameraParameters::isValid` is an abstract boolean function, and
publishing a transform is recorded as appending it to an output list.
-/

namespace ArucoLocalizer

/-- Index pair written by the camera-matrix reshape loop of
`ros2arucoCamParams` (line 169): `cameraMatrix.at<double>(i%3, i-(i%3)*3)`. -/
def srcReshapeIndex (i : ℤ) : ℤ × ℤ := (i % 3, i - (i % 3) * 3)

/-- Standard row-major index pair for a 9-element vector into a 3×3 matrix:
row `i/3`, column `i%3`. -/
def rowMajorIndex (i : ℤ) : ℤ × ℤ := (i / 3, i % 3)

/-- Whether an index pair addresses a cell of a 3×3 matrix. -/
def inRange3x3 (p : ℤ × ℤ) : Prop := 0 ≤ p.1 ∧ p.1 < 3 ∧ 0 ≤ p.2 ∧ p.2 < 3

instance (p : ℤ × ℤ) : Decidable (inRange3x3 p) := by
  unfold inRange3x3
  infer_instance

/-- Unit flag of the aruco marker map (`isExpressedInPixels` /
`isExpressedInMeters`). -/
inductive MapUnits where
  | pixels
  | meters
deriving DecidableEq

/-- The marker-map configuration `mmConfig_`.  Only the unit flag is relevant
to the claims; ids, dictionary and corner geometry stay with the external
aruco library. -/
structure MarkerMap where
  units : MapUnits
deriving DecidableEq

/-- `aruco::MarkerMap::isExpressedInPixels` (external predicate on the flag). -/
def isExpressedInPixels (m : MarkerMap) : Bool :=
  match m.units with
  | .pixels => true
  | .meters => false

/-- `aruco::MarkerMap::isExpressedInMeters` (external predicate on the flag). -/
def isExpressedInMeters (m : MarkerMap) : Bool :=
  match m.units with
  | .meters => true
  | .pixels => false

/-- Modelled from the spec: `aruco::MarkerMap::convertToMeters(markerSize)`
lives in the external aruco library, not in this repository; per the spec it
rescales the geometry and yields a Meters-flagged model.  Only the unit flag
is tracked here. -/
def convertToMeters (_m : MarkerMap) (_markerSize : ℚ) : MarkerMap :=
  { units := .meters }

/-- The marker-map part of the `ArucoLocalizer` constructor (lines 39–41):
`if (mmConfig_.isExpressedInPixels()) mmConfig_ = mmConfig_.convertToMeters(markerSize);`
Returns the resulting map together with the number of `convertToMeters`
invocations performed. -/
def constructorMap (loaded : MarkerMap) (markerSize : ℚ) : MarkerMap × ℕ :=
  if isExpressedInPixels loaded then (convertToMeters loaded markerSize, 1)
  else (loaded, 0)

/-- The fields of `sensor_msgs::CameraInfo` read by the localizer:
the 9-element row-major intrinsic array `K`, the variable-length distortion
array `D`, and the image `width` and `height`. -/
structure CameraInfoMsg where
  K : ℕ → ℚ
  D : List ℚ
  width : ℕ
  height : ℕ

/-- Distortion handling of `ros2arucoCamParams` (lines 172–184): if `D` has
exactly 4 or 5 entries, copy the first four into the 4×1 coefficient matrix;
otherwise fill it with zeros and emit `ROS_WARN` (second component `true`). -/
def normalizeDistortion (D : List ℚ) : List ℚ × Bool :=
  if D.length = 4 ∨ D.length = 5 then (D.take 4, false)
  else ([0, 0, 0, 0], true)

/-- A `cv::Size` value: a width and a height. -/
structure CamSize where
  width : ℕ
  height : ℕ
deriving DecidableEq

/-- The `cv::Size` constructor `Size_(_Tp _width, _Tp _height)`: the first
argument is the width, the second the height. -/
def mkSize (first second : ℕ) : CamSize :=
  { width := first, height := second }

/-- The `aruco::CameraParameters` value built by `ros2arucoCamParams`.
The camera matrix is recorded as the list of `(index pair, value)` writes
performed by the loop at lines 168–169, so out-of-range target indices stay
visible. -/
structure CameraParameters where
  cameraMatrixWrites : List ((ℤ × ℤ) × ℚ)
  distortion : List ℚ
  camSize : CamSize
deriving DecidableEq

/-- `ArucoLocalizer::ros2arucoCamParams` (lines 162–187).  The size is built
by `cv::Size size(cinfo->height, cinfo->width)` (line 165), the camera matrix
by the loop `cameraMatrix.at<double>(i%3, i-(i%3)*3) = cinfo->K[i]` for
`i = 0..8`, and the distortion by the 4/5-length rule.  The second component
records whether the distortion warning was emitted. -/
def ros2arucoCamParams (cinfo : CameraInfoMsg) : CameraParameters × Bool :=
  let nd := normalizeDistortion cinfo.D
  ({ cameraMatrixWrites :=
       (List.range 9).map (fun (i : ℕ) => (srcReshapeIndex (i : ℤ), cinfo.K i)),
     distortion := nd.1,
     camSize := mkSize cinfo.height cinfo.width }, nd.2)

/-- A 3×3 matrix of exact reals, entry `mRC` at row R, column C. -/
structure Mat3 where
  m00 : ℚ
  m01 : ℚ
  m02 : ℚ
  m10 : ℚ
  m11 : ℚ
  m12 : ℚ
  m20 : ℚ
  m21 : ℚ
  m22 : ℚ
deriving DecidableEq

/-- Matrix product, as in `rot*rotate_to_ros.t()` (line 213). -/
def Mat3.mul (A B : Mat3) : Mat3 where
  m00 := A.m00 * B.m00 + A.m01 * B.m10 + A.m02 * B.m20
  m01 := A.m00 * B.m01 + A.m01 * B.m11 + A.m02 * B.m21
  m02 := A.m00 * B.m02 + A.m01 * B.m12 + A.m02 * B.m22
  m10 := A.m10 * B.m00 + A.m11 * B.m10 + A.m12 * B.m20
  m11 := A.m10 * B.m01 + A.m11 * B.m11 + A.m12 * B.m21
  m12 := A.m10 * B.m02 + A.m11 * B.m12 + A.m12 * B.m22
  m20 := A.m20 * B.m00 + A.m21 * B.m10 + A.m22 * B.m20
  m21 := A.m20 * B.m01 + A.m21 * B.m11 + A.m22 * B.m21
  m22 := A.m20 * B.m02 + A.m21 * B.m12 + A.m22 * B.m22

/-- Matrix transpose, as in `rotate_to_ros.t()` (line 213). -/
def Mat3.transpose (A : Mat3) : Mat3 where
  m00 := A.m00
  m01 := A.m10
  m02 := A.m20
  m10 := A.m01
  m11 := A.m11
  m12 := A.m21
  m20 := A.m02
  m21 := A.m12
  m22 := A.m22

/-- The identity matrix. -/
def Mat3.identity : Mat3 :=
  ⟨1, 0, 0, 0, 1, 0, 0, 0, 1⟩

/-- A 3-vector of exact reals (`tf::Vector3`). -/
structure Vec3 where
  x : ℚ
  y : ℚ
  z : ℚ
deriving DecidableEq

/-- A rotation as stored in a `tf::Transform`: either a raw 3×3 matrix
(`tf::Matrix3x3`, lines 215–217) or a quaternion built by
`tf::Quaternion::setRPY(roll, pitch, yaw)` (line 74); the trigonometric
quaternion construction stays with the external tf library, so the RPY
arguments (radians) are kept symbolically. -/
inductive Rot where
  | mat (m : Mat3)
  | rpy (roll pitch yaw : ℚ)
deriving DecidableEq

/-- A `tf::Transform`: rotation and origin. -/
structure Transform where
  rot : Rot
  orig : Vec3
deriving DecidableEq

/-- A `tf::StampedTransform` as sent on line 66/76/85:
`(transform, time, frame_id, child_frame_id)`; `frame_id` is the parent
frame.  The timestamp is not relevant to any claim. -/
structure StampedTransform where
  transform : Transform
  parent : String
  child : String
deriving DecidableEq

/-- The constant matrix `rotate_to_ros` filled entrywise at lines 204–212:
`[[-1,0,0],[0,0,1],[0,1,0]]`. -/
def rotateToRos : Mat3 :=
  ⟨-1, 0, 0, 0, 0, 1, 0, 1, 0⟩

/-- `ArucoLocalizer::aruco2tf` (lines 191–223).  The `convertTo` calls are
exact on this model and `cv::Rodrigues` is external, so the function takes
the already-unpacked rotation matrix `rot` and the translation `tvec`; it
returns the transform with rotation `rot * rotate_to_ros.t()` and origin
`tvec`. -/
def aruco2tf (rot : Mat3) (tvec : Vec3) : Transform :=
  { rot := Rot.mat (rot.mul rotateToRos.transpose), orig := tvec }

/-- `ArucoLocalizer::sendtf` (lines 55–87), as the list of stamped
transforms broadcast, in order: `aruco→camera` from `aruco2tf`, then
`camera→chiny` with rotation `setRPY(0.0, -1.5707, 0.0)` and origin
`(0,0,0)`, then `world→aruco` with identity rotation and origin
`(0,0,-0.4064)`. -/
def sendtf (rot : Mat3) (tvec : Vec3) : List StampedTransform :=
  [ { transform := aruco2tf rot tvec, parent := "aruco", child := "camera" },
    { transform := { rot := Rot.rpy 0 (-15707 / 10000) 0, orig := ⟨0, 0, 0⟩ },
      parent := "camera", child := "chiny" },
    { transform := { rot := Rot.mat Mat3.identity, orig := ⟨0, 0, -4064 / 10000⟩ },
      parent := "world", child := "aruco" } ]

/-- Result of `ArucoLocalizer::processImage`: which transforms were
broadcast, and whether `mmPoseTracker_.estimatePose` was called. -/
structure ProcessResult where
  published : List StampedTransform
  estimateAttempted : Bool
deriving DecidableEq

/-- `ArucoLocalizer::processImage` (lines 91–112).  Marker detection and
drawing are external and do not affect the transforms.  `trackerValid` is
`mmPoseTracker_.isValid()`, `solveOk` the external result of
`estimatePose`, and `rot`/`tvec` the solver pose handed to `sendtf`
(after Rodrigues).  Transforms are sent only inside the nested
`if (isValid()) { if (estimatePose(...)) { ... sendtf(...); } }`. -/
def processImage (trackerValid solveOk : Bool) (rot : Mat3) (tvec : Vec3) :
    ProcessResult :=
  if trackerValid then
    if solveOk then { published := sendtf rot tvec, estimateAttempted := true }
    else { published := [], estimateAttempted := true }
  else { published := [], estimateAttempted := false }

/-- Observable effects of one `cameraCallback` invocation: whether the
modified image was published (line 157), the transforms broadcast, and
whether `cam_model_.fromCameraInfo` ran (line 126). -/
structure CallbackOutputs where
  imagePublished : Bool
  transforms : List StampedTransform
  camModelUpdated : Bool
deriving DecidableEq

/-- One incoming frame: whether `cv_bridge::toCvCopy` succeeds, the
camera-info message, and the external per-frame solver outcome
(`estimatePose` result and the solved pose). -/
structure Event where
  decodeOk : Bool
  cinfo : CameraInfoMsg
  solveOk : Bool
  rot : Mat3
  tvec : Vec3

/-- Mutable members of `ArucoLocalizer` crossing frame boundaries:
`mmPoseTracker_` (configured parameters once `setParams` ran, else `none`),
`camParams_`, and `mmConfig_`. -/
structure LState where
  trackerParams : Option (CameraParameters × MarkerMap)
  camParams : Option CameraParameters
  map : MarkerMap

/-- `ArucoLocalizer::cameraCallback` (lines 116–158).  On decode failure the
callback returns at once (lines 118–123): state unchanged, nothing
published.  Otherwise it updates the camera model, runs the one-time
tracker configuration guarded by
`!mmPoseTracker_.isValid() && mmConfig_.isExpressedInMeters()`
(lines 129–137) with the external validity check `isValid` on the freshly
converted parameters, then processes the image and publishes the modified
frame.  Returns the new state and the outputs. -/
def cameraCallback (isValid : CameraParameters → Bool) (s : LState) (e : Event) :
    LState × CallbackOutputs :=
  if e.decodeOk then
    let s2 :=
      if s.trackerParams.isNone && isExpressedInMeters s.map then
        let cp := (ros2arucoCamParams e.cinfo).1
        if isValid cp then
          { s with camParams := some cp, trackerParams := some (cp, s.map) }
        else
          { s with camParams := some cp }
      else s
    let pr := processImage s2.trackerParams.isSome e.solveOk e.rot e.tvec
    (s2, { imagePublished := true, transforms := pr.published,
           camModelUpdated := true })
  else
    (s, { imagePublished := false, transforms := [], camModelUpdated := false })

/-- Folding `cameraCallback` over a sequence of frames. -/
def runCallbacks (isValid : CameraParameters → Bool) (s : LState)
    (es : List Event) : LState :=
  es.foldl (fun st e => (cameraCallback isValid st e).1) s

/-- A sample camera-info message used for concrete evaluations:
`K[i] = i`, a length-4 distortion vector, a 640×480 image. -/
def sampleMsg : CameraInfoMsg :=
  { K := fun i => (i : ℚ), D := [0, 0, 0, 0], width := 640, height := 480 }

/-- External validity verdict that accepts every parameter set. -/
def alwaysValid : CameraParameters → Bool := fun _ => true

/-- Freshly constructed state with a Meters-flagged map and an unconfigured
tracker. -/
def metersState : LState :=
  { trackerParams := none, camParams := none, map := { units := .meters } }

/-- A frame that decodes successfully, carrying `sampleMsg`. -/
def readyEvent : Event :=
  { decodeOk := true, cinfo := sampleMsg, solveOk := false,
    rot := Mat3.identity, tvec := ⟨0, 0, 0⟩ }

/-- A frame whose image fails to decode. -/
def badEvent : Event :=
  { decodeOk := false, cinfo := sampleMsg, solveOk := true,
    rot := Mat3.identity, tvec := ⟨0, 0, 0⟩ }

/-- The static `world→aruco` stamped transform as broadcast by `sendtf`. -/
def staticWorldAruco : StampedTransform :=
  { transform := { rot := Rot.mat Mat3.identity, orig := ⟨0, 0, -4064 / 10000⟩ },
    parent := "world", child := "aruco" }

/-! ### Step lemmas for the callback state machine -/

theorem cameraCallback_map (f : CameraParameters → Bool) (s : LState) (e : Event) :
    (cameraCallback f s e).1.map = s.map := by
  unfold cameraCallback
  by_cases hd : e.decodeOk = true
  · simp only [hd, if_true]
    by_cases hg : (s.trackerParams.isNone && isExpressedInMeters s.map) = true
    · simp only [hg, if_true]
      by_cases hv : f (ros2arucoCamParams e.cinfo).1 = true <;> simp [hv]
    · simp [hg]
  · simp [hd]

theorem cameraCallback_preserves (f : CameraParameters → Bool) (s : LState)
    (e : Event) (p : CameraParameters × MarkerMap)
    (h : s.trackerParams = some p) :
    (cameraCallback f s e).1.trackerParams = some p := by
  unfold cameraCallback
  by_cases hd : e.decodeOk = true <;> simp [hd, h]

theorem cameraCallback_some_source (f : CameraParameters → Bool) (s : LState)
    (e : Event)
    (h : (cameraCallback f s e).1.trackerParams.isSome = true) :
    s.trackerParams.isSome = true ∨
      (e.decodeOk = true ∧ isExpressedInMeters s.map = true ∧
        f (ros2arucoCamParams e.cinfo).1 = true) := by
  by_cases hd : e.decodeOk = true
  · by_cases hg : (s.trackerParams.isNone && isExpressedInMeters s.map) = true
    · by_cases hv : f (ros2arucoCamParams e.cinfo).1 = true
      · exact Or.inr ⟨hd, ((Bool.and_eq_true _ _).mp hg).2, hv⟩
      · left
        unfold cameraCallback at h
        simp only [hd, if_true, hg, hv, if_false] at h
        exact h
    · left
      unfold cameraCallback at h
      simp only [hd, if_true, hg, if_false] at h
      exact h
  · left
    unfold cameraCallback at h
    simp only [hd, if_false] at h
    exact h

theorem runCallbacks_nil (f : CameraParameters → Bool) (s : LState) :
    runCallbacks f s [] = s := rfl

theorem runCallbacks_cons (f : CameraParameters → Bool) (s : LState) (e : Event)
    (es : List Event) :
    runCallbacks f s (e :: es) = runCallbacks f (cameraCallback f s e).1 es := rfl

theorem runCallbacks_map (f : CameraParameters → Bool) (es : List Event) :
    ∀ s : LState, (runCallbacks f s es).map = s.map := by
  induction es with
  | nil => intro s; rfl
  | cons e es ih =>
    intro s
    rw [runCallbacks_cons, ih, cameraCallback_map]

theorem runCallbacks_some_source (f : CameraParameters → Bool) (es : List Event) :
    ∀ s : LState, s.trackerParams = none →
      (runCallbacks f s es).trackerParams.isSome = true →
      isExpressedInMeters s.map = true ∧
        ∃ ev ∈ es, ev.decodeOk = true ∧ f (ros2arucoCamParams ev.cinfo).1 = true := by
  induction es with
  | nil =>
    intro s h0 hs
    rw [runCallbacks_nil, h0] at hs
    simp at hs
  | cons e es ih =>
    intro s h0 hs
    rw [runCallbacks_cons] at hs
    cases hmid : (cameraCallback f s e).1.trackerParams with
    | none =>
      have hrec := ih (cameraCallback f s e).1 hmid hs
      rw [cameraCallback_map] at hrec
      obtain ⟨ev, hev, hrest⟩ := hrec.2
      exact ⟨hrec.1, ev, List.mem_cons_of_mem _ hev, hrest⟩
    | some p =>
      have hsome : (cameraCallback f s e).1.trackerParams.isSome = true := by
        rw [hmid]; rfl
      rcases cameraCallback_some_source f s e hsome with hl | hr
      · rw [h0] at hl; simp at hl
      · exact ⟨hr.2.1, e, List.mem_cons_self _ _, hr.1, hr.2.2⟩

/-! ### Claim theorems -/

/-- C1: the source reshape loop writes `K[i]` at `(i%3, i-(i%3)*3)`, not at
the row-major position `(i/3, i%3)`: at `i = 1` the target is row 1,
column −2, which is outside the 3×3 matrix, and the two index formulas agree
only at `i ∈ {0, 4, 8}`. -/
theorem C1_reshape_divergence :
    (ros2arucoCamParams sampleMsg).1.cameraMatrixWrites.map Prod.fst =
      [(0, 0), (1, -2), (2, -4), (0, 3), (1, 1), (2, -1), (0, 6), (1, 4), (2, 2)] ∧
    srcReshapeIndex 1 = (1, -2) ∧
    ¬ inRange3x3 (srcReshapeIndex 1) ∧
    rowMajorIndex 1 = (0, 1) ∧
    ((List.range 9).filter
        (fun (i : ℕ) => decide (srcReshapeIndex (i : ℤ) = rowMajorIndex (i : ℤ)))) =
      [0, 4, 8] := by
  decide

/-- C5: if the distortion input has length 4 it is passed through unchanged
with no warning; length 5 keeps the first 4 with no warning; any other length
yields `[0,0,0,0]`, and the warning is signaled exactly in that last case. -/
theorem C5_distortion_normalization (D : List ℚ) :
    (D.length = 4 → normalizeDistortion D = (D, false)) ∧
    (D.length = 5 → normalizeDistortion D = (D.take 4, false)) ∧
    (D.length ≠ 4 → D.length ≠ 5 → normalizeDistortion D = ([0, 0, 0, 0], true)) ∧
    ((normalizeDistortion D).2 = true ↔ (D.length ≠ 4 ∧ D.length ≠ 5)) := by
  refine ⟨fun h4 => ?_, fun h5 => ?_, fun h4 h5 => ?_, ?_⟩
  · rw [normalizeDistortion, if_pos (Or.inl h4), ← h4, List.take_length]
  · rw [normalizeDistortion, if_pos (Or.inr h5)]
  · rw [normalizeDistortion, if_neg (by tauto)]
  · by_cases h : D.length = 4 ∨ D.length = 5 <;> simp [normalizeDistortion, h] <;> tauto

/-- C5 witness: a length-5 input keeps its first four coefficients without a
warning, and an empty input yields zero distortion with a warning. -/
theorem C5_distortion_normalization_witness :
    normalizeDistortion [1, 2, 3, 4, 5] = ([1, 2, 3, 4], false) ∧
    normalizeDistortion [] = ([0, 0, 0, 0], true) :=
  ⟨(C5_distortion_normalization [1, 2, 3, 4, 5]).2.1 rfl,
   (C5_distortion_normalization []).2.2.1 (by decide) (by decide)⟩

/-- C9 counterexample: for a 640×480 camera-info message the produced
`cv::Size` has width 480 — the message height, not the message width — so
the width component of the produced size differs from the message width. -/
theorem C9_counterexample :
    sampleMsg.width = 640 ∧ sampleMsg.height = 480 ∧
    (ros2arucoCamParams sampleMsg).1.camSize.width = 480 ∧
    (ros2arucoCamParams sampleMsg).1.camSize.width ≠ sampleMsg.width := by
  decide

/-- C9 (amended): `ros2arucoCamParams` builds the size as
`cv::Size(cinfo->height, cinfo->width)`, whose first constructor argument is
the width — so the produced size has width equal to the message height and
height equal to the message width (the components are swapped). -/
theorem C9_size_components (cinfo : CameraInfoMsg) :
    (ros2arucoCamParams cinfo).1.camSize =
      { width := cinfo.height, height := cinfo.width } :=
  rfl

/-- C4: `aruco2tf` maps the solver rotation `rot` and translation `tvec` to
the transform with rotation `rot * rotate_to_ros.t()` and unchanged
translation, where `rotate_to_ros` is exactly `[[-1,0,0],[0,0,1],[0,1,0]]`;
that matrix is symmetric, and on identity rotation with zero translation the
result is `rotate_to_ros` itself with zero translation. -/
theorem C4_axis_remap (rot : Mat3) (tvec : Vec3) :
    aruco2tf rot tvec =
      { rot := Rot.mat (rot.mul rotateToRos.transpose), orig := tvec } ∧
    rotateToRos = ⟨-1, 0, 0, 0, 0, 1, 0, 1, 0⟩ ∧
    rotateToRos.transpose = rotateToRos ∧
    aruco2tf Mat3.identity ⟨0, 0, 0⟩ =
      { rot := Rot.mat rotateToRos, orig := ⟨0, 0, 0⟩ } := by
  refine ⟨rfl, rfl, rfl, ?_⟩
  simp only [aruco2tf, Mat3.mul, Mat3.transpose, rotateToRos, Mat3.identity,
    Transform.mk.injEq, Rot.mat.injEq, Mat3.mk.injEq]
  norm_num

/-- C2 counterexample: on a frame where the tracker is Ready but the pose
solve fails, and on a frame where the tracker is not Ready, `processImage`
publishes no transforms at all — in particular not the two static ones. -/
theorem C2_counterexample :
    (processImage true false Mat3.identity ⟨0, 0, 0⟩).published = [] ∧
    (processImage false true Mat3.identity ⟨0, 0, 0⟩).published = [] :=
  ⟨rfl, rfl⟩

/-- C2 (amended): the two static transforms `camera→chiny` and
`world→aruco` are published exactly on frames where the tracker is Ready and
the pose solve succeeds (together with the dynamic transform, inside
`sendtf`); on every other frame no transforms are published. -/
theorem C2_statics_with_dynamic (valid solveOk : Bool) (rot : Mat3) (tvec : Vec3) :
    (valid = true → solveOk = true →
      staticWorldAruco ∈ (processImage valid solveOk rot tvec).published ∧
      ({ transform := { rot := Rot.rpy 0 (-15707 / 10000) 0, orig := ⟨0, 0, 0⟩ },
         parent := "camera", child := "chiny" } : StampedTransform) ∈
        (processImage valid solveOk rot tvec).published) ∧
    (¬(valid = true ∧ solveOk = true) →
      (processImage valid solveOk rot tvec).published = []) := by
  cases valid <;> cases solveOk <;>
    simp [processImage, sendtf, staticWorldAruco]

/-- C2 witness: on a Ready frame with a successful solve, both static
transforms are among the published transforms. -/
theorem C2_statics_with_dynamic_witness :
    staticWorldAruco ∈ (processImage true true Mat3.identity ⟨0, 0, 0⟩).published ∧
    ({ transform := { rot := Rot.rpy 0 (-15707 / 10000) 0, orig := ⟨0, 0, 0⟩ },
       parent := "camera", child := "chiny" } : StampedTransform) ∈
      (processImage true true Mat3.identity ⟨0, 0, 0⟩).published :=
  (C2_statics_with_dynamic true true Mat3.identity ⟨0, 0, 0⟩).1 rfl rfl

/-- C8: the dynamic `aruco→camera` transform is published iff the tracker is
Ready and the per-frame solve succeeds; `estimatePose` is attempted iff the
tracker is Ready; and a frame with the tracker not Ready publishes nothing
and attempts no pose estimation. -/
theorem C8_dynamic_iff_ready_and_solved (valid solveOk : Bool) (rot : Mat3)
    (tvec : Vec3) :
    (({ transform := aruco2tf rot tvec, parent := "aruco", child := "camera" } :
        StampedTransform) ∈ (processImage valid solveOk rot tvec).published ↔
      (valid = true ∧ solveOk = true)) ∧
    ((processImage valid solveOk rot tvec).estimateAttempted = valid) ∧
    (valid = false →
      processImage valid solveOk rot tvec =
        { published := [], estimateAttempted := false }) := by
  cases valid <;> cases solveOk <;>
    simp [processImage, sendtf]

/-- C8 witness: with the tracker not Ready, `processImage` publishes nothing
and does not attempt pose estimation. -/
theorem C8_dynamic_iff_ready_and_solved_witness :
    processImage false true Mat3.identity ⟨0, 0, 0⟩ =
      { published := [], estimateAttempted := false } :=
  (C8_dynamic_iff_ready_and_solved false true Mat3.identity ⟨0, 0, 0⟩).2.2 rfl

/-- C3: the tracker becomes Ready only through the guarded configuration
block: starting Uninitialized, if a run of camera callbacks ends Ready then
the map was metric and some frame decoded successfully with parameters the
external validity check accepted; and once Ready, any further callback —
whatever camera-info it carries — leaves the stored tracker parameters
unchanged. -/
theorem C3_ready_monotone (f : CameraParameters → Bool) (s : LState) (e : Event)
    (es : List Event) :
    (∀ p, s.trackerParams = some p →
      (cameraCallback f s e).1.trackerParams = some p) ∧
    (s.trackerParams = none →
      (runCallbacks f s es).trackerParams.isSome = true →
      isExpressedInMeters s.map = true ∧
        ∃ ev ∈ es, ev.decodeOk = true ∧ f (ros2arucoCamParams ev.cinfo).1 = true) :=
  ⟨fun p hp => cameraCallback_preserves f s e p hp,
   fun h0 hs => runCallbacks_some_source f es s h0 hs⟩

/-- C3 witness: from a fresh state with a metric map, one successfully
decoded frame whose parameters the external check accepts makes the tracker
Ready, and the theorem recovers the metric map and that frame. -/
theorem C3_ready_monotone_witness :
    isExpressedInMeters metersState.map = true ∧
    ∃ ev ∈ [readyEvent], ev.decodeOk = true ∧
      alwaysValid (ros2arucoCamParams ev.cinfo).1 = true :=
  (C3_ready_monotone alwaysValid metersState readyEvent [readyEvent]).2 rfl rfl

/-- C10: when image decoding fails, `cameraCallback` returns immediately —
the state (tracker, stored parameters, map) is unchanged, no image and no
transforms are published, and the camera model is not updated; consequently
the Uninitialized→Ready transition can only happen on a frame that decodes
successfully. -/
theorem C10_decode_failure (f : CameraParameters → Bool) (s : LState) (e : Event) :
    (e.decodeOk = false →
      cameraCallback f s e =
        (s, { imagePublished := false, transforms := [],
              camModelUpdated := false })) ∧
    (s.trackerParams = none →
      (cameraCallback f s e).1.trackerParams.isSome = true →
      e.decodeOk = true) := by
  constructor
  · intro hd
    unfold cameraCallback
    simp [hd]
  · intro h0 hs
    rcases cameraCallback_some_source f s e hs with hl | hr
    · rw [h0] at hl
      simp at hl
    · exact hr.1

/-- C10 witness: a frame that fails to decode leaves the fresh state exactly
as it was and produces no outputs. -/
theorem C10_decode_failure_witness :
    cameraCallback alwaysValid metersState badEvent =
      (metersState,
        { imagePublished := false, transforms := [], camModelUpdated := false }) :=
  (C10_decode_failure alwaysValid metersState badEvent).1 rfl

/-- C6 counterexample: the `camera→chiny` static transform broadcast by
`sendtf` carries the RPY pitch literal `-1.5707` radians, and that value is
not exactly −90° (−π/2 radians). -/
theorem C6_counterexample :
    (sendtf Mat3.identity ⟨0, 0, 0⟩)[1]? =
      some { transform := { rot := Rot.rpy 0 (-15707 / 10000) 0,
                            orig := ⟨0, 0, 0⟩ },
             parent := "camera", child := "chiny" } ∧
    (((-15707 / 10000 : ℚ) : ℝ) ≠ -(Real.pi / 2)) := by
  refine ⟨rfl, fun h => ?_⟩
  have hpi : (3.141592 : ℝ) < Real.pi := Real.pi_gt_d6
  have h2 : ((-15707 / 10000 : ℚ) : ℝ) = -15707 / 10000 := by
    push_cast
    ring
  rw [h2] at h
  have hval : Real.pi = 15707 / 5000 := by linarith
  rw [hval] at hpi
  norm_num at hpi

/-- C6 (amended): every static transform broadcast by `sendtf` carries the
process-lifetime constants — `world→aruco` has identity rotation and origin
exactly `(0, 0, -0.4064)`, and `camera→chiny` has rotation
`setRPY(0, -1.5707, 0)` (pitch −1.5707 radians, approximately −90°) with
zero origin. -/
theorem C6_static_values (rot : Mat3) (tvec : Vec3) (t : StampedTransform)
    (ht : t ∈ sendtf rot tvec) :
    (t.parent = "world" →
      t.child = "aruco" ∧
        t.transform =
          { rot := Rot.mat Mat3.identity, orig := ⟨0, 0, -4064 / 10000⟩ }) ∧
    (t.child = "chiny" →
      t.parent = "camera" ∧
        t.transform =
          { rot := Rot.rpy 0 (-15707 / 10000) 0, orig := ⟨0, 0, 0⟩ }) := by
  fin_cases ht <;> refine ⟨fun h => ?_, fun h => ?_⟩ <;>
    first
      | exact ⟨rfl, rfl⟩
      | simp at h

/-- C6 witness: the `world→aruco` member of a concrete `sendtf` broadcast
has child frame `aruco` and the constant identity-rotation transform with
origin `(0, 0, -0.4064)`. -/
theorem C6_static_values_witness :
    staticWorldAruco.child = "aruco" ∧
    staticWorldAruco.transform =
      { rot := Rot.mat Mat3.identity, orig := ⟨0, 0, -4064 / 10000⟩ } :=
  (C6_static_values Mat3.identity ⟨0, 0, 0⟩ staticWorldAruco
    (List.mem_cons_of_mem _ (List.mem_cons_of_mem _ (List.mem_cons_self _ _)))).1 rfl

/-- C7: the constructor invokes `convertToMeters` exactly when the loaded
map is Pixels-flagged — so at most once per process lifetime, before any
frame is processed — an already-Meters map is returned untouched with zero
conversions, and no camera callback ever changes the map afterwards. -/
theorem C7_convert_at_most_once (m : MarkerMap) (ms : ℚ)
    (f : CameraParameters → Bool) (s : LState) (es : List Event) :
    ((constructorMap m ms).2 = if isExpressedInPixels m = true then 1 else 0) ∧
    (constructorMap m ms).2 ≤ 1 ∧
    (isExpressedInMeters m = true → constructorMap m ms = (m, 0)) ∧
    (runCallbacks f s es).map = s.map := by
  refine ⟨?_, ?_, ?_, runCallbacks_map f es s⟩
  · unfold constructorMap
    by_cases h : isExpressedInPixels m = true <;> simp [h]
  · unfold constructorMap
    by_cases h : isExpressedInPixels m = true <;> simp [h]
  · intro hm
    have hp : isExpressedInPixels m = false := by
      cases m with
      | mk u => cases u <;> simp_all [isExpressedInPixels, isExpressedInMeters]
    unfold constructorMap
    simp [hp]

/-- C7 witness: a Meters-flagged map passes through the constructor with
zero `convertToMeters` invocations. -/
theorem C7_convert_at_most_once_witness :
    constructorMap { units := MapUnits.meters } 1 = ({ units := MapUnits.meters }, 0) :=
  (C7_convert_at_most_once { units := MapUnits.meters } 1 alwaysValid metersState []).2.2.1 rfl

end ArucoLocalizer
